import Mathlib

/-!
Verification of the map-rendering module of `gee-redlist-python`
(`src/gee_redlist/map.py`) against its natural-language specification.

The Python module is shallowly embedded: every numeric computation of the
source is modelled over `ℚ` (the source uses Python floats but every
constant appearing in the relevant arithmetic is decimal), Python `int()`
truncation toward zero is modelled explicitly, fallible steps return
`Except`, and the side-effecting rendering calls on the matplotlib axes are
recorded as an explicit list of drawing operations.
-/

namespace GeeRedlist

/-- Python `int(x)` on a float/rational: truncation toward zero. -/
def pyInt (x : ℚ) : ℤ := if 0 ≤ x then ⌊x⌋ else ⌈x⌉

/-- Embedding of `get_utm_epsg` (map.py lines 19-71):
`utm_zone = int((lon + 180) / 6) + 1`, clamped with
`utm_zone = max(1, min(60, utm_zone))`, then `32600 + utm_zone` for
`lat >= 0` and `32700 + utm_zone` otherwise. -/
def get_utm_epsg (lon lat : ℚ) : ℤ :=
  let utm_zone : ℤ := pyInt ((lon + 180) / 6) + 1
  let utm_zone : ℤ := max 1 (min 60 utm_zone)
  if 0 ≤ lat then 32600 + utm_zone else 32700 + utm_zone

/-- The zone index of the claim: `clamp(floor((lon + 180) / 6) + 1, 1, 60)`. -/
def claimedZone (lon : ℚ) : ℤ := max 1 (min 60 (⌊(lon + 180) / 6⌋ + 1))

/-- Bounds of a (projected) geometry, as returned by
`shapely .bounds`: `(minx, miny, maxx, maxy)`. -/
structure Bounds where
  minx : ℚ
  miny : ℚ
  maxx : ℚ
  maxy : ℚ
  deriving DecidableEq, Repr

/-- The map extent, in the order the source builds the list
`[minx, maxx, miny, maxy]` (map.py lines 224-229). -/
structure Extent where
  minx : ℚ
  maxx : ℚ
  miny : ℚ
  maxy : ℚ
  deriving DecidableEq, Repr

/-- Embedding of the extent computation of `create_country_map`
(map.py lines 218-229): `padding_x = x_range * 0.15`,
`padding_y = y_range * 0.15`, extent = bounds expanded by the paddings. -/
def computeExtent (bounds : Bounds) : Extent :=
  let x_range := bounds.maxx - bounds.minx
  let y_range := bounds.maxy - bounds.miny
  let padding_x := x_range * (15 / 100)
  let padding_y := y_range * (15 / 100)
  { minx := bounds.minx - padding_x
    maxx := bounds.maxx + padding_x
    miny := bounds.miny - padding_y
    maxy := bounds.maxy + padding_y }

/-- A Python value passed as `country_code`: the function annotates `str`
but nothing enforces it, so non-string inputs reach the body. -/
inductive PyVal where
  | strV (s : String)
  | intV (n : ℤ)
  | noneV
  deriving DecidableEq, Repr

/-- The Python exceptions that the entry of `create_country_map` can
surface.  `wklsNotFound code` stands for the raw internal exception of the
`wkls` boundary store when `wkls[code]` has no entry (the store raises
`No result found for: <code>`); `typeError` / `valueError` are the
validation errors the tests and the spec describe. -/
inductive PyErr where
  | typeError (msg : String)
  | valueError (msg : String)
  | attributeError (msg : String)
  | wklsNotFound (code : String)
  deriving DecidableEq, Repr

/-- WKB payload of the boundary store (opaque byte string). -/
abbrev Wkb := List ℕ

/-- The boundary store: lower-cased code to WKB geometry, `none` = missing. -/
abbrev Store := String → Option Wkb

/-- Python `str.lower()` on the character data (country codes are ASCII,
for which this agrees with the Python semantics). -/
def pyStrLower (s : String) : String := String.mk (s.data.map Char.toLower)

/-- Python `x.lower()` attribute access: succeeds only on strings; on
`None` or an int it raises `AttributeError`. -/
def pyLower : PyVal → Except PyErr String
  | .strV s => .ok (pyStrLower s)
  | .intV _ => .error (.attributeError "int object has no attribute lower")
  | .noneV => .error (.attributeError "NoneType object has no attribute lower")

/-- Embedding of the entry of `create_country_map` (map.py lines 172-178):
default the output path to `{country_code.lower()}.png`, then look up
`wkls[country_code.lower()].wkb()` directly — there is no validation of
the code and no try/except around the store lookup, so a store miss
surfaces the store's raw exception. -/
def create_country_map_entry (wkls : Store) (country_code : PyVal)
    (output_path : Option String) : Except PyErr (String × Wkb) :=
  match pyLower country_code with
  | .error e => .error e
  | .ok lower =>
    let path := match output_path with
      | none => lower ++ ".png"
      | some p => p
    match wkls lower with
    | some wkb => .ok (path, wkb)
    | none => .error (.wklsNotFound lower)

/-- A store with no entries, for evaluating the entry on unknown codes. -/
def emptyStore : Store := fun _ => none

/-- Visualization parameters: the Python dict passed as `ee_vis_params`. -/
abbrev VisParams := List (String × ℚ)

/-- A symbolic Earth Engine image expression, recording which server side
operations have been applied to the caller's `ee_image`. -/
inductive EEImageExpr where
  | source
  | clip (e : EEImageExpr)
  | visualize (e : EEImageExpr) (params : VisParams)
  deriving DecidableEq, Repr

/-- Embedding of `ee_image_clipped` (map.py lines 252-261): clip to the
country geometry iff `clip_ee_image` is set. -/
def ee_image_clipped (clip_ee_image : Bool) : EEImageExpr :=
  if clip_ee_image then .clip .source else .source

/-- Embedding of `ee_image_visualized` (map.py lines 263-272): default the
params to the empty dict, then visualize iff the dict is truthy
(non-empty). -/
def ee_image_visualized (clip_ee_image : Bool)
    (ee_vis_params : Option VisParams) : EEImageExpr :=
  let params := ee_vis_params.getD []
  if params.isEmpty then ee_image_clipped clip_ee_image
  else .visualize (ee_image_clipped clip_ee_image) params

/-- The image expression on which `getDownloadURL` is invoked for the value
raster (map.py line 280): the source calls it on `ee_image_clipped`, not on
`ee_image_visualized`. -/
def downloadURLImage (clip_ee_image : Bool)
    (ee_vis_params : Option VisParams) : EEImageExpr :=
  let _visualized := ee_image_visualized clip_ee_image ee_vis_params
  ee_image_clipped clip_ee_image

/-- The parameter dict passed to `getDownloadURL` (map.py lines 274-293),
used identically for the value raster and the mask raster. -/
structure DownloadParams where
  region : List ℚ
  format : String
  crs : String
  crs_transform : List ℚ
  deriving DecidableEq, Repr

/-- Embedding of the download request construction in `add_ee_image`
(map.py lines 238-293): `scale = 10000` and
`crs_transform = [scale, 0, extent[0], 0, scale, extent[2]]`, with the
request region rectangle `[extent[0], extent[2], extent[1], extent[3]]`. -/
def getDownloadParams (utm_epsg : ℤ) (extent : Extent) : DownloadParams :=
  let scale : ℚ := 10000
  { region := [extent.minx, extent.miny, extent.maxx, extent.maxy]
    format := "GEO_TIFF"
    crs := "EPSG:" ++ toString utm_epsg
    crs_transform := [scale, 0, extent.minx, 0, scale, extent.miny] }

/-- The claimed resolution budget, written from the spec's words:
`scale = max(extent_width, extent_height) / (dpi × 4)`. -/
def specScale (extent : Extent) (dpi : ℚ) : ℚ :=
  max (extent.maxx - extent.minx) (extent.maxy - extent.miny) / (dpi * 4)

/-- One pixel of the composited basemap: its band values and whether the
numpy mask marks it as masked out. -/
structure MPixel where
  bands : List ℚ
  masked : Bool
  deriving DecidableEq, Repr

/-- Embedding of `np.ma.masked_where(img_array_mask <= 0, img_array_rgb)`
(map.py line 348): both grids are in (row, column) layout after the
`moveaxis` calls; a pixel is masked exactly when its mask value is `≤ 0`.
The single mask band broadcasts over the value bands. -/
def masked_where_mask_le_zero (img_array_mask : List (List ℚ))
    (img_array_rgb : List (List (List ℚ))) : List (List MPixel) :=
  List.zipWith
    (fun mrow prow =>
      List.zipWith (fun m p => ⟨p, decide (m ≤ 0)⟩) mrow prow)
    img_array_mask img_array_rgb

/-- The alpha with which `imshow` renders a pixel of the masked array:
`cmap.set_bad(alpha=0.0)` (map.py lines 343-344) makes masked ("bad")
pixels fully transparent; unmasked pixels are drawn opaque. -/
def renderedAlpha (p : MPixel) : ℚ := if p.masked then 0 else 1

/-- Georeferenced bounds of the downloaded raster (`dataset.bounds`). -/
structure RasterBounds where
  left : ℚ
  right : ℚ
  bottom : ℚ
  top : ℚ
  deriving DecidableEq, Repr

/-- Outcome of the two raster fetches plus decoding inside the try block of
`add_ee_image` (map.py lines 298-393): either both grids decode, or a
network timeout, or any other download/decode failure. -/
inductive FetchOutcome where
  | ok (rgb : List (List (List ℚ))) (mask : List (List ℚ)) (bounds : RasterBounds)
  | timeout
  | failure (msg : String)
  deriving DecidableEq, Repr

/-- One side-effecting call on the matplotlib figure/axes, recorded in
program order. -/
inductive DrawOp where
  | stock_img (alpha : ℚ)
  | set_extent (e : List ℚ)
  | imshow (img : List (List MPixel)) (extent : RasterBounds)
      (cmap : String) (cmap_bad_alpha : ℚ)
  | warn (msg : String)
  | add_feature (name : String) (facecolor : Option String)
  | add_geometries (alpha : ℚ) (facecolor : String)
      (edgecolor : Option String) (linewidth : Option ℚ)
  | grid_on
  | set_major_locator (axis : String) (nbins : ℕ)
  | set_km_formatter (axis : String)
  | set_xlabel (s : String)
  | set_ylabel (s : String)
  | tick_params
  | set_spine_invisible (name : String)
  | set_title (t : String)
  | savefig (path : String) (dpi : ℕ)
  deriving DecidableEq, Repr

/-- Python truthiness of an optional string (`None` and `""` are falsy). -/
def strTruthy : Option String → Bool
  | none => false
  | some s => !s.isEmpty

/-- Python truthiness of an optional float (`None` and `0.0` are falsy). -/
def ratTruthy : Option ℚ → Bool
  | none => false
  | some q => decide (q ≠ 0)

/-- The keyword arguments of the `ax.add_geometries` call on the target
polygon (map.py lines 415-431): fixed `alpha=0.7`; `facecolor` is
`fill_color` if truthy else `white`; `edgecolor` included iff `edge_color`
is truthy; `linewidth` included iff `edge_width` is truthy. -/
def geometry_kwargs (fill_color edge_color : Option String)
    (edge_width : Option ℚ) : DrawOp :=
  .add_geometries (7/10)
    (if strTruthy fill_color then (fill_color.getD "") else "white")
    (if strTruthy edge_color then edge_color else none)
    (if ratTruthy edge_width then edge_width else none)

/-- The drawing operations of `add_ee_image` (map.py lines 296-393): on
success, one `imshow` of the masked composite with the gray colormap whose
bad-pixel alpha is 0; on a timeout or any other failure, only a warning. -/
def add_ee_image_ops (fetch : FetchOutcome) : List DrawOp :=
  match fetch with
  | .ok rgb mask bounds =>
      [.imshow (masked_where_mask_le_zero mask rgb) bounds "gray" 0]
  | .timeout =>
      [.warn "Warning: Earth Engine image download timed out. Skipping basemap layer."]
  | .failure e =>
      [.warn ("Warning: Failed to download or display Earth Engine image: " ++ e)]

/-- The keyword configuration of `create_country_map` after the
`country_code` and `output_path` positional arguments (map.py lines
92-104), with the source's defaults. -/
structure MapConfig where
  show_surrounding_countries : Bool := true
  show_grid : Bool := true
  show_border : Bool := true
  title : Option String := none
  fill_color : Option String := none
  edge_color : Option String := some "black"
  edge_width : Option ℚ := some (3/2)
  has_ee_image : Bool := false
  ee_vis_params : Option VisParams := none
  clip_ee_image : Bool := false
  deriving DecidableEq, Repr

/-- The spines of a matplotlib axes frame (`ax.spines.values()`). -/
def spineNames : List String := ["left", "right", "bottom", "top"]

/-- The drawing operations of `create_country_map` after the entry, in
program order (map.py lines 193-533): stock image, extent, optional Earth
Engine basemap, contextual features, the target polygon, grid or hidden
spines, optional title, save. -/
def renderOps (cfg : MapConfig) (output_path : String) (extent : Extent)
    (utm_zone : ℤ) (is_south : Bool) (fetch : FetchOutcome) : List DrawOp :=
  [.stock_img 1,
   .set_extent [extent.minx, extent.maxx, extent.miny, extent.maxy]]
  ++ (if cfg.has_ee_image then add_ee_image_ops fetch else [])
  ++ (if cfg.show_surrounding_countries then
        [.add_feature "LAND" (some "white"),
         .add_feature "OCEAN" (some "lightblue"),
         .add_feature "COASTLINE" none,
         .add_feature "BORDERS" none]
      else
        [.add_feature "OCEAN" (some "white"),
         .add_feature "LAND" (some "white")])
  ++ [geometry_kwargs cfg.fill_color cfg.edge_color cfg.edge_width]
  ++ (if cfg.show_grid then
        [.grid_on,
         .set_major_locator "x" 6, .set_major_locator "y" 6,
         .set_km_formatter "x", .set_km_formatter "y",
         .set_xlabel ("Easting (km) - UTM Zone " ++ toString utm_zone
           ++ (if is_south then "S" else "N")),
         .set_ylabel "Northing (km)",
         .tick_params]
      else spineNames.map DrawOp.set_spine_invisible)
  ++ (if strTruthy cfg.title then [.set_title (cfg.title.getD "")] else [])
  ++ [.savefig output_path 300]

/-- Access a pixel of a row-major grid: row `i`, column `j`. -/
def gridGet? (g : List (List α)) (i j : ℕ) : Option α :=
  (g[i]?).bind fun row => row[j]?

/-- Operations that belong to the optional Earth Engine basemap layer of
the trace (the `imshow` of the composite, or the warning that replaced
it). -/
def isBasemapOp : DrawOp → Bool
  | .imshow _ _ _ _ => true
  | .warn _ => true
  | _ => false

/-- The `edgecolor` keyword of an `add_geometries` call, if any. -/
def edgecolorOf : DrawOp → Option String
  | .add_geometries _ _ e _ => e
  | _ => none

/-- The `linewidth` keyword of an `add_geometries` call, if any. -/
def linewidthOf : DrawOp → Option ℚ
  | .add_geometries _ _ _ w => w
  | _ => none

/-- Centroid of the country geometry (shapely `.centroid`), in WGS84. -/
structure Centroid where
  x : ℚ
  y : ℚ
  deriving DecidableEq, Repr

/-- The full run of `create_country_map`: the entry (lookup) followed by
the projection calculation (`utm_epsg % 100`, `is_south = centroid.y < 0`,
map.py lines 180-190), the extent computation, the rendering trace, and
the returned output path.  The centroid and the projected bounds stand for
the results of the external shapely/pyproj computations on the looked-up
geometry; the fetch outcome stands for the network and decode results. -/
def create_country_map_run (wkls : Store) (country_code : PyVal)
    (output_path : Option String) (cfg : MapConfig) (centroid : Centroid)
    (bounds_utm : Bounds) (fetch : FetchOutcome) :
    Except PyErr (List DrawOp × String) :=
  match create_country_map_entry wkls country_code output_path with
  | .error e => .error e
  | .ok (path, _wkb) =>
    let utm_epsg := get_utm_epsg centroid.x centroid.y
    let utm_zone := utm_epsg % 100
    let is_south := decide (centroid.y < 0)
    let extent := computeExtent bounds_utm
    .ok (renderOps cfg path extent utm_zone is_south fetch, path)

end GeeRedlist

namespace GeeRedlist

/-- C7: for every longitude and latitude, `get_utm_epsg` returns
`32600 + z` when `lat ≥ 0` and `32700 + z` when `lat < 0`, where
`z = clamp(floor((lon + 180) / 6) + 1, 1, 60)`, and `1 ≤ z ≤ 60` always
holds.  (The source truncates toward zero where the claim floors; the two
agree after the clamp, which is part of the proof.) -/
theorem get_utm_epsg_zone_clamped (lon lat : ℚ) :
    get_utm_epsg lon lat =
      (if 0 ≤ lat then 32600 + claimedZone lon else 32700 + claimedZone lon) ∧
    1 ≤ claimedZone lon ∧ claimedZone lon ≤ 60 := by
  have hzone : max 1 (min 60 (pyInt ((lon + 180) / 6) + 1)) = claimedZone lon := by
    unfold claimedZone pyInt
    by_cases h : (0 : ℚ) ≤ (lon + 180) / 6
    · simp [h]
    · push_neg at h
      have hceil : ⌈(lon + 180) / 6⌉ ≤ (0 : ℤ) :=
        Int.ceil_le.mpr (by exact_mod_cast h.le)
      have hfloor : ⌊(lon + 180) / 6⌋ ≤ ⌈(lon + 180) / 6⌉ := Int.floor_le_ceil _
      simp only [if_neg (not_le.mpr h)]
      omega
  refine ⟨?_, ?_, ?_⟩
  · unfold get_utm_epsg
    rw [← hzone]
  · exact le_max_left _ _
  · unfold claimedZone
    exact max_le (by norm_num) (min_le_left _ _)

/-- C8: for non-degenerate bounds, the computed extent is the raw bounding
box expanded on each of the four sides by exactly 15% of the corresponding
axis range, hence strictly contains the bounding box. -/
theorem computeExtent_pads_fifteen_percent (b : Bounds)
    (hx : b.minx < b.maxx) (hy : b.miny < b.maxy) :
    (computeExtent b).minx = b.minx - (15 / 100) * (b.maxx - b.minx) ∧
    (computeExtent b).maxx = b.maxx + (15 / 100) * (b.maxx - b.minx) ∧
    (computeExtent b).miny = b.miny - (15 / 100) * (b.maxy - b.miny) ∧
    (computeExtent b).maxy = b.maxy + (15 / 100) * (b.maxy - b.miny) ∧
    (computeExtent b).minx < b.minx ∧ b.maxx < (computeExtent b).maxx ∧
    (computeExtent b).miny < b.miny ∧ b.maxy < (computeExtent b).maxy := by
  have hpx : (0 : ℚ) < (b.maxx - b.minx) * (15 / 100) :=
    mul_pos (sub_pos.mpr hx) (by norm_num)
  have hpy : (0 : ℚ) < (b.maxy - b.miny) * (15 / 100) :=
    mul_pos (sub_pos.mpr hy) (by norm_num)
  unfold computeExtent
  refine ⟨by ring, by ring, by ring, by ring, ?_, ?_, ?_, ?_⟩ <;> dsimp only <;> linarith

/-- Witness for C8 at the spec's mocked bounds (103.6, 1.2, 104.0, 1.5):
both paddings are applied and strict containment holds. -/
theorem computeExtent_pads_fifteen_percent_witness :
    (computeExtent ⟨1036/10, 12/10, 1040/10, 15/10⟩).minx < 1036/10 ∧
    (1040/10 : ℚ) < (computeExtent ⟨1036/10, 12/10, 1040/10, 15/10⟩).maxx ∧
    (computeExtent ⟨1036/10, 12/10, 1040/10, 15/10⟩).minx
      = 1036/10 - (15/100) * (1040/10 - 1036/10) := by
  have h := computeExtent_pads_fifteen_percent ⟨1036/10, 12/10, 1040/10, 15/10⟩
    (by norm_num) (by norm_num)
  exact ⟨h.2.2.2.2.1, h.2.2.2.2.2.1, h.1⟩

/-- C1: the entry of `create_country_map` performs no validation of the
region code.  The empty string, a whitespace string and `USA` are passed
straight to the boundary store (surfacing its raw not-found exception,
never a value error), a non-string input fails with an attribute error
from `.lower()` (not a type error), and for every string input no value
error and no type error is ever raised before the store lookup. -/
theorem create_country_map_entry_skips_validation :
    create_country_map_entry emptyStore (PyVal.strV "") (some "o.png") =
      Except.error (PyErr.wklsNotFound "") ∧
    create_country_map_entry emptyStore (PyVal.strV "  ") (some "o.png") =
      Except.error (PyErr.wklsNotFound "  ") ∧
    create_country_map_entry emptyStore (PyVal.strV "USA") (some "o.png") =
      Except.error (PyErr.wklsNotFound "usa") ∧
    create_country_map_entry emptyStore PyVal.noneV (some "o.png") =
      Except.error (PyErr.attributeError "NoneType object has no attribute lower") ∧
    create_country_map_entry emptyStore (PyVal.intV 123) (some "o.png") =
      Except.error (PyErr.attributeError "int object has no attribute lower") ∧
    (∀ (wkls : Store) (s : String) (p : Option String) (m : String),
      create_country_map_entry wkls (PyVal.strV s) p ≠
        Except.error (PyErr.valueError m) ∧
      create_country_map_entry wkls (PyVal.strV s) p ≠
        Except.error (PyErr.typeError m)) := by
  refine ⟨rfl, rfl, rfl, rfl, rfl, ?_⟩
  intro wkls s p m
  simp only [create_country_map_entry, pyLower]
  cases h : wkls (pyStrLower s) <;> simp [h]

/-- C6: a boundary-store miss is not translated: the entry surfaces the
raw internal not-found exception of the store for the lower-cased code,
and never a descriptive value error of any message. -/
theorem store_miss_raises_raw_store_error :
    create_country_map_entry emptyStore (PyVal.strV "ZZ") none =
      Except.error (PyErr.wklsNotFound "zz") ∧
    (∀ m : String,
      create_country_map_entry emptyStore (PyVal.strV "ZZ") none ≠
        Except.error (PyErr.valueError m)) := by
  refine ⟨rfl, ?_⟩
  intro m
  simp [create_country_map_entry, pyLower, emptyStore]

/-- C2 counterexample: for the extent padded from bounds
(0, 0, 1200000, 1200000) and the output DPI of 300 used by `savefig`, the
spec formula gives 1300 while the scale placed in the `crs_transform` of
the download request is 10000: the requested ground sample distance is not
derived from the DPI and the extent size. -/
theorem download_scale_not_dpi_derived_counterexample :
    (getDownloadParams 32610 (computeExtent ⟨0, 0, 1200000, 1200000⟩)).crs_transform[0]? =
      some 10000 ∧
    specScale (computeExtent ⟨0, 0, 1200000, 1200000⟩) 300 = 1300 ∧
    (1300 : ℚ) ≠ 10000 := by
  refine ⟨rfl, ?_, by norm_num⟩
  norm_num [specScale, computeExtent]

/-- C2 amended: the scale placed in the `crs_transform` of every download
request is the fixed constant 10000, independent of the output DPI and of
the extent size. -/
theorem download_scale_is_constant (utm_epsg : ℤ) (extent : Extent) :
    (getDownloadParams utm_epsg extent).crs_transform =
      [10000, 0, extent.minx, 0, 10000, extent.miny] := rfl

/-- C5 counterexample: with caller-supplied visualization parameters, the
image handed to `getDownloadURL` is the raw source image, not the result
of the visualize step, so the downloaded pixel values do not reflect the
caller's visualization parameters. -/
theorem download_ignores_vis_params_counterexample :
    downloadURLImage false (some [("min", 0), ("max", 8000)]) =
      EEImageExpr.source ∧
    ee_image_visualized false (some [("min", 0), ("max", 8000)]) =
      EEImageExpr.visualize EEImageExpr.source [("min", 0), ("max", 8000)] ∧
    downloadURLImage false (some [("min", 0), ("max", 8000)]) ≠
      ee_image_visualized false (some [("min", 0), ("max", 8000)]) := by
  refine ⟨rfl, rfl, ?_⟩
  decide

/-- C5 amended: the visualized image is computed but never used — the
download request is always issued on the unvisualized (optionally clipped)
image regardless of the visualization parameters, and the fetched basemap
is drawn with the fixed gray colormap (masked pixels transparent), not
with a caller-supplied colormap. -/
theorem download_uses_unvisualized_image (clip_ee_image : Bool)
    (ee_vis_params : Option VisParams) (rgb : List (List (List ℚ)))
    (mask : List (List ℚ)) (rb : RasterBounds) :
    downloadURLImage clip_ee_image ee_vis_params = ee_image_clipped clip_ee_image ∧
    add_ee_image_ops (.ok rgb mask rb) =
      [.imshow (masked_where_mask_le_zero mask rgb) rb "gray" 0] :=
  ⟨rfl, rfl⟩

/-- C4: in the composited basemap, a pixel is visible iff the
corresponding mask value is positive; a pixel with mask value `≤ 0` is
rendered with alpha 0 regardless of its band values; and an all-zero mask
makes every pixel of the composite fully transparent (the composite is
still produced). -/
theorem basemap_pixel_visible_iff_mask_positive
    (mask : List (List ℚ)) (rgb : List (List (List ℚ))) (i j : ℕ)
    (m : ℚ) (p : List ℚ)
    (hm : gridGet? mask i j = some m) (hp : gridGet? rgb i j = some p) :
    gridGet? (masked_where_mask_le_zero mask rgb) i j =
      some ⟨p, decide (m ≤ 0)⟩ ∧
    ((decide (m ≤ 0) = false) ↔ 0 < m) ∧
    renderedAlpha ⟨p, decide (m ≤ 0)⟩ = (if 0 < m then 1 else 0) ∧
    ((∀ i₂ j₂ m₂, gridGet? mask i₂ j₂ = some m₂ → m₂ = 0) →
      ∀ i₂ j₂ q,
        gridGet? (masked_where_mask_le_zero mask rgb) i₂ j₂ = some q →
        renderedAlpha q = 0) := by
  obtain ⟨mrow, hmr, hmj⟩ := Option.bind_eq_some.mp hm
  obtain ⟨prow, hpr, hpj⟩ := Option.bind_eq_some.mp hp
  refine ⟨?_, ?_, ?_, ?_⟩
  · have hrow : (masked_where_mask_le_zero mask rgb)[i]? =
        some (List.zipWith (fun m p => (⟨p, decide (m ≤ 0)⟩ : MPixel)) mrow prow) :=
      List.getElem?_zipWith_eq_some.mpr ⟨mrow, prow, hmr, hpr, rfl⟩
    unfold gridGet?
    rw [hrow]
    exact List.getElem?_zipWith_eq_some.mpr ⟨m, p, hmj, hpj, rfl⟩
  · simp
  · by_cases h : m ≤ 0
    · simp [renderedAlpha, h, not_lt.mpr h]
    · simp [renderedAlpha, h, lt_of_not_le h]
  · intro hzero i₂ j₂ q hq
    obtain ⟨crow, hcr, hcj⟩ := Option.bind_eq_some.mp hq
    obtain ⟨mrow₂, prow₂, hmr₂, hpr₂, hrow₂⟩ :=
      List.getElem?_zipWith_eq_some.mp hcr
    subst hrow₂
    obtain ⟨m₂, p₂, hm₂, hp₂, hq₂⟩ := List.getElem?_zipWith_eq_some.mp hcj
    have hz : m₂ = 0 := hzero i₂ j₂ m₂ (by unfold gridGet?; rw [hmr₂]; exact hm₂)
    subst hq₂
    simp [renderedAlpha, hz]

/-- Witness for C4: on a concrete 2×2 mask and value grid, the pixel whose
mask value is 2 is visible (alpha 1), and on an all-zero mask every pixel
of the composite is transparent. -/
theorem basemap_pixel_visible_iff_mask_positive_witness :
    gridGet? (masked_where_mask_le_zero [[0, 2], [0, 0]]
        [[[5], [7]], [[9], [11]]]) 0 1 = some ⟨[7], false⟩ ∧
    renderedAlpha ⟨[7], false⟩ = 1 ∧
    (∀ i₂ j₂ q,
      gridGet? (masked_where_mask_le_zero [[0, 0]] [[[1], [2]]]) i₂ j₂ = some q →
      renderedAlpha q = 0) := by
  have h := basemap_pixel_visible_iff_mask_positive [[0, 2], [0, 0]]
    [[[5], [7]], [[9], [11]]] 0 1 2 [7] (by decide) (by decide)
  have hz := basemap_pixel_visible_iff_mask_positive [[0, 0]] [[[1], [2]]]
    0 0 0 [1] (by decide) (by decide)
  refine ⟨by simpa using h.1, by simpa using h.2.2.1, ?_⟩
  refine hz.2.2.2 ?_
  intro i₂ j₂ m₂ hm₂
  rcases i₂ with _ | i₂
  · rcases j₂ with _ | _ | j₂
    · simpa [gridGet?] using hm₂.symm
    · simpa [gridGet?] using hm₂.symm
    · simp [gridGet?] at hm₂
  · simp [gridGet?] at hm₂

/-- C3: when the raster fetch fails with a timeout or any other
download/decode failure, `create_country_map` still completes: the run
returns the output path, the output file is written (`savefig`), a warning
is emitted, no basemap (`imshow`) is drawn, and the remaining drawing
operations are exactly those of a successful render. -/
theorem fetch_failure_degrades_gracefully (wkls : Store) (s : String) (w : Wkb)
    (output_path : Option String) (cfg : MapConfig) (centroid : Centroid)
    (bounds_utm : Bounds) (fetch : FetchOutcome)
    (hstore : wkls (pyStrLower s) = some w)
    (hee : cfg.has_ee_image = true)
    (hfail : fetch = .timeout ∨ ∃ e, fetch = .failure e) :
    ∃ ops path,
      create_country_map_run wkls (.strV s) output_path cfg centroid bounds_utm
          fetch = .ok (ops, path) ∧
      DrawOp.savefig path 300 ∈ ops ∧
      (∃ msg, DrawOp.warn msg ∈ ops) ∧
      (∀ img rb cm al, DrawOp.imshow img rb cm al ∉ ops) ∧
      (∀ rgb mask rb,
        ops.filter (fun o => !isBasemapOp o) =
          (renderOps cfg path (computeExtent bounds_utm)
            (get_utm_epsg centroid.x centroid.y % 100)
            (decide (centroid.y < 0)) (.ok rgb mask rb)).filter
            (fun o => !isBasemapOp o)) := by
  obtain ⟨path, hentry⟩ :
      ∃ path, create_country_map_entry wkls (.strV s) output_path = .ok (path, w) := by
    cases output_path with
    | none =>
      exact ⟨pyStrLower s ++ ".png", by simp [create_country_map_entry, pyLower, hstore]⟩
    | some p =>
      exact ⟨p, by simp [create_country_map_entry, pyLower, hstore]⟩
  refine ⟨renderOps cfg path (computeExtent bounds_utm)
    (get_utm_epsg centroid.x centroid.y % 100) (decide (centroid.y < 0)) fetch,
    path, ?_, ?_, ?_, ?_, ?_⟩
  · simp [create_country_map_run, hentry]
  · simp [renderOps]
  · rcases hfail with hf | ⟨e, hf⟩ <;> subst hf
    · exact ⟨"Warning: Earth Engine image download timed out. Skipping basemap layer.",
        by simp [renderOps, hee, add_ee_image_ops]⟩
    · exact ⟨"Warning: Failed to download or display Earth Engine image: " ++ e,
        by simp [renderOps, hee, add_ee_image_ops]⟩
  · intro img rb cm al h
    rcases hfail with hf | ⟨e, hf⟩ <;> subst hf <;>
      revert h <;>
      simp only [renderOps, hee, if_true, add_ee_image_ops, geometry_kwargs,
        spineNames, List.mem_append, List.mem_map, List.mem_singleton,
        List.mem_cons, List.not_mem_nil] <;>
      split_ifs <;> simp
  · intro rgb mask rb
    rcases hfail with hf | ⟨e, hf⟩ <;> subst hf <;>
      simp [renderOps, hee, add_ee_image_ops, List.filter_append, isBasemapOp]

/-- Witness for C3: a concrete run with a one-entry store, an Earth Engine
basemap requested, and a timed-out fetch still returns successfully with
the savefig operation present and no imshow drawn. -/
theorem fetch_failure_degrades_gracefully_witness :
    ∃ ops path,
      create_country_map_run (fun c => if c = "sg" then some [1] else none)
          (.strV "SG") none { has_ee_image := true } ⟨1038/10, 13/10⟩
          ⟨0, 0, 1000, 2000⟩ .timeout = .ok (ops, path) ∧
      DrawOp.savefig path 300 ∈ ops ∧
      (∃ msg, DrawOp.warn msg ∈ ops) ∧
      (∀ img rb cm al, DrawOp.imshow img rb cm al ∉ ops) ∧
      (∀ rgb mask rb,
        ops.filter (fun o => !isBasemapOp o) =
          (renderOps { has_ee_image := true } path (computeExtent ⟨0, 0, 1000, 2000⟩)
            (get_utm_epsg (1038/10) (13/10) % 100)
            (decide ((13/10 : ℚ) < 0)) (.ok rgb mask rb)).filter
            (fun o => !isBasemapOp o)) :=
  fetch_failure_degrades_gracefully (fun c => if c = "sg" then some [1] else none)
    "SG" [1] none { has_ee_image := true } ⟨1038/10, 13/10⟩ ⟨0, 0, 1000, 2000⟩
    .timeout (by decide) rfl (Or.inl rfl)

/-- C9: rendering with `show_grid = False` sets every frame spine
invisible, and rendering with `show_grid = True` never hides a spine and
applies the grid, the tick locators and the kilometer tick formatters. -/
theorem show_grid_controls_spines (cfg : MapConfig) (path : String)
    (extent : Extent) (uz : ℤ) (south : Bool) (fetch : FetchOutcome) :
    (cfg.show_grid = false →
      ∀ s ∈ spineNames,
        DrawOp.set_spine_invisible s ∈ renderOps cfg path extent uz south fetch) ∧
    (cfg.show_grid = true →
      (∀ s, DrawOp.set_spine_invisible s ∉ renderOps cfg path extent uz south fetch) ∧
      DrawOp.grid_on ∈ renderOps cfg path extent uz south fetch ∧
      DrawOp.set_major_locator "x" 6 ∈ renderOps cfg path extent uz south fetch ∧
      DrawOp.set_major_locator "y" 6 ∈ renderOps cfg path extent uz south fetch ∧
      DrawOp.set_km_formatter "x" ∈ renderOps cfg path extent uz south fetch ∧
      DrawOp.set_km_formatter "y" ∈ renderOps cfg path extent uz south fetch) := by
  constructor
  · intro hsg s hs
    have hmem : DrawOp.set_spine_invisible s ∈
        List.map DrawOp.set_spine_invisible spineNames :=
      List.mem_map_of_mem DrawOp.set_spine_invisible hs
    simp only [renderOps, hsg, Bool.false_eq_true, if_false, List.mem_append]
    tauto
  · intro hsg
    refine ⟨?_, ?_, ?_, ?_, ?_, ?_⟩
    · intro s h
      revert h
      cases fetch <;>
        simp only [renderOps, hsg, if_true, add_ee_image_ops, geometry_kwargs,
          List.mem_append, List.mem_singleton, List.mem_cons,
          List.not_mem_nil] <;>
        split_ifs <;> simp
    all_goals
      simp [renderOps, hsg]

/-- Witness for C9: with `show_grid = False` all four spines are hidden in
a concrete render; with `show_grid = True` no spine is ever hidden. -/
theorem show_grid_controls_spines_witness :
    (∀ s ∈ spineNames,
      DrawOp.set_spine_invisible s ∈
        renderOps { show_grid := false } "fr.png" ⟨0, 10, 0, 10⟩ 31 false .timeout) ∧
    (∀ s, DrawOp.set_spine_invisible s ∉
        renderOps { show_grid := true } "fr.png" ⟨0, 10, 0, 10⟩ 31 false .timeout) :=
  ⟨(show_grid_controls_spines { show_grid := false } "fr.png" ⟨0, 10, 0, 10⟩
      31 false .timeout).1 rfl,
   ((show_grid_controls_spines { show_grid := true } "fr.png" ⟨0, 10, 0, 10⟩
      31 false .timeout).2 rfl).1⟩

/-- C10: two runs of `create_country_map` whose arguments differ only in
the `show_border` flag produce identical drawing operations and identical
results — the flag is never read after parameter binding — and the target
polygon's edge color is set iff `edge_color` is truthy and its width iff
`edge_width` is truthy, independent of `show_border`. -/
theorem show_border_never_read (wkls : Store) (country_code : PyVal)
    (output_path : Option String) (cfg : MapConfig) (b1 b2 : Bool)
    (centroid : Centroid) (bounds_utm : Bounds) (fetch : FetchOutcome) :
    create_country_map_run wkls country_code output_path
        { cfg with show_border := b1 } centroid bounds_utm fetch =
      create_country_map_run wkls country_code output_path
        { cfg with show_border := b2 } centroid bounds_utm fetch ∧
    (edgecolorOf (geometry_kwargs cfg.fill_color cfg.edge_color cfg.edge_width)).isSome =
      strTruthy cfg.edge_color ∧
    (linewidthOf (geometry_kwargs cfg.fill_color cfg.edge_color cfg.edge_width)).isSome =
      ratTruthy cfg.edge_width := by
  refine ⟨rfl, ?_, ?_⟩
  · cases h : strTruthy cfg.edge_color
    · simp [geometry_kwargs, edgecolorOf, h]
    · cases he : cfg.edge_color with
      | none => simp [strTruthy, he] at h
      | some s =>
        rw [he] at h
        simp [geometry_kwargs, edgecolorOf, he, h]
  · cases h : ratTruthy cfg.edge_width
    · simp [geometry_kwargs, linewidthOf, h]
    · cases he : cfg.edge_width with
      | none => simp [ratTruthy, he] at h
      | some q =>
        rw [he] at h
        simp [geometry_kwargs, linewidthOf, he, h]

end GeeRedlist
